import Mathlib

/-!
# FitTrackApp — verification of the specification against the source

Shallow embedding of the FitTrackApp repository (Next.js / TypeScript):
the request middleware (`src/middleware.ts`), the per-endpoint session
verification helpers, the goal-item handlers
(`src/app/api/goals/[goalId]/route.ts`), the progress-creation handler and
the auth (login) handler (`src/app/api/progress/route.ts`), the goals
collection handlers (`src/unnamed/part_005`), and the pure utilities
(`src/unnamed/part_003`).

Modelling conventions:
* JavaScript numbers are modelled as `ℚ` (with explicit constructors for
  `null`/`undefined`, `NaN` and non-numeric runtime values where the source
  branches on them); the special floating values `±Infinity` are outside
  the model.
* The cryptographic outcome of `jsonwebtoken.verify(token, secret)` is an
  input of the model (`VerifyOutcome`): for one request, every call site
  that performs `verify` with the same token and secret observes the same
  outcome.
* Database collections are in-memory lists; the Mongoose query filters are
  translated to list searches.  Storage-level exceptions other than the
  ones a claim mentions (the cascade step of DELETE, connection failure)
  are outside the model.
* Strings are processed through their underlying character lists
  (`String.data`) so every definition evaluates by kernel reduction.
-/

namespace FitTrack

/-! ## Basic string helpers (kernel-computable) -/

/-- Character-list test: `pre` is an initial segment of `s`.
Models JavaScript `String.prototype.startsWith`. -/
def listStartsWith : List Char → List Char → Bool
  | [], _ => true
  | _ :: _, [] => false
  | a :: as, b :: bs => a == b && listStartsWith as bs

/-- JavaScript `String.prototype.trim()` on a character list: drop leading
and trailing whitespace. -/
def trimList (cs : List Char) : List Char :=
  ((cs.dropWhile Char.isWhitespace).reverse.dropWhile Char.isWhitespace).reverse

/-- Lower-case a string character-wise.  Models JavaScript
`String.prototype.toLowerCase()` for the ASCII range. -/
def lowerStr (s : String) : String :=
  ⟨s.data.map Char.toLower⟩

/-- Hexadecimal digit test (both cases), as accepted by
`mongoose.Types.ObjectId.isValid` for 24-character hex strings. -/
def isHexChar (c : Char) : Bool :=
  c.isDigit || ('a' ≤ c && c ≤ 'f') || ('A' ≤ c && c ≤ 'F')

/-- Models `mongoose.Types.ObjectId.isValid(s)` for a string argument: a
24-character hexadecimal string, or any 12-character string (12-byte
buffer interpretation). -/
def isValidObjectId (s : String) : Bool :=
  (s.data.length == 24 && s.data.all isHexChar) || s.data.length == 12

/-- Decimal value of a digit list, as produced by `parseInt(digits, 10)`
on an all-digit string. -/
def digitsToNat (ds : List Char) : Nat :=
  ds.foldl (fun n c => n * 10 + (c.toNat - '0'.toNat)) 0

/-! ## `lib/utils.ts` — `calculateCompletionPercentage`

Source: `src/unnamed/part_003`, lines 90–131.  A JavaScript argument of
declared type `number | null | undefined` is modelled by `JsArg`: `absent`
covers `null` and `undefined`, `nan` the value `NaN` (which has
`typeof _ === 'number'` but fails `!isNaN`), `nonNum` any runtime value
failing the `typeof _ === 'number'` check, and `num q` a finite number. -/

inductive JsArg : Type where
  | absent : JsArg
  | nonNum : JsArg
  | nan : JsArg
  | num : ℚ → JsArg
deriving DecidableEq

/-- The `effectiveCurrentValue` step of the source: a `null`/`undefined`,
non-number or `NaN` current value is treated as `0`, a finite number is
kept. -/
def effectiveCurrentValue : JsArg → ℚ
  | JsArg.num c => c
  | _ => 0

/-- Models `calculateCompletionPercentage(currentValue, targetValue)`.
The source first rejects a target that is `null`/`undefined`, not of type
number, `NaN`, or `≤ 0` (returning `null`, modelled `none`); then treats a
`null`/`undefined`/non-number/`NaN` current as `0`; computes
`(current / target) * 100`; clamps with `Math.max(0, Math.min(p, 100))`.
The final `isNaN(clamped) ? 0 : clamped` guard never fires for finite
inputs with a positive target, so over `ℚ` the clamped value is returned
directly. -/
def calculateCompletionPercentage (currentValue targetValue : JsArg) : Option ℚ :=
  match targetValue with
  | JsArg.absent => none
  | JsArg.nonNum => none
  | JsArg.nan => none
  | JsArg.num t =>
    if t ≤ 0 then none
    else some (max 0 (min (effectiveCurrentValue currentValue / t * 100) 100))

/-! ## `parseJwtExpiresIn` — auth route helper

Source: `src/app/api/progress/route.ts` (auth segment), lines 289–308:

  `const match = expiresIn.trim().match(/^(\d+)([dhms])$/);`
  then `parseInt`, the `value <= 0` rejection, and a unit switch. -/

/-- Seconds per unit character, as computed by the `switch` statement. -/
def unitSeconds : Char → Nat
  | 'd' => 24 * 60 * 60
  | 'h' => 60 * 60
  | 'm' => 60
  | _ => 1

/-- Unit characters of the regex class `[dhms]`. -/
def isUnitChar (u : Char) : Bool :=
  u == 'd' || u == 'h' || u == 'm' || u == 's'

/-- Result of matching a character list against `^(\d+)([dhms])$`: the
digit group and the unit character, or `none` when the whole-string match
fails. -/
def matchIntUnit (cs : List Char) : Option (List Char × Char) :=
  match cs.getLast? with
  | none => none
  | some u =>
    let ds := cs.dropLast
    if !ds.isEmpty && ds.all Char.isDigit && isUnitChar u then some (ds, u) else none

/-- Models `parseJwtExpiresIn(expiresIn)`: trim, match the anchored regex,
`parseInt` the digit group, reject a non-positive value, convert by
unit.  `isNaN(value)` cannot hold for a non-empty digit group, so only the
`value <= 0` rejection remains. -/
def parseJwtExpiresIn (s : String) : Option Nat :=
  match matchIntUnit (trimList s.data) with
  | none => none
  | some (ds, u) =>
    let value := digitsToNat ds
    if value ≤ 0 then none else some (value * unitSeconds u)

/-- Specification-side reading of the claim: the (trimmed) string is
literally `<integer><unit>` — a non-empty digit sequence followed by one
of `d`, `h`, `m`, `s` — denoting a positive integer, and the result is
that integer converted to seconds. -/
def specIntUnit (cs : List Char) (n : Nat) : Prop :=
  ∃ ds u, cs = ds ++ [u] ∧ ds ≠ [] ∧ (∀ c ∈ ds, c.isDigit = true) ∧
    (u = 'd' ∨ u = 'h' ∨ u = 'm' ∨ u = 's') ∧
    0 < digitsToNat ds ∧ n = digitsToNat ds * unitSeconds u

/-! ## Session verification

The decoded payload shape that the helpers branch on after
`verify(token, jwtSecret)` returns, and the possible outcomes of the
`verify` call itself (`jsonwebtoken` throws `TokenExpiredError`, a plain
`JsonWebTokenError`, or some other error). -/

inductive DecodedShape : Type where
  /-- `typeof decoded !== 'object'` or `decoded === null` (e.g. a string payload). -/
  | notObject : DecodedShape
  /-- an object without a `userId` key. -/
  | objNoUserId : DecodedShape
  /-- an object whose `userId` is not a string. -/
  | objUserIdNotString : DecodedShape
  /-- an object whose `userId` is the string `s`. -/
  | objUserIdStr : String → DecodedShape
deriving DecidableEq

inductive VerifyOutcome : Type where
  /-- `verify` throws `TokenExpiredError`. -/
  | throwsExpired : VerifyOutcome
  /-- `verify` throws a `JsonWebTokenError` that is not a `TokenExpiredError`. -/
  | throwsJwtError : VerifyOutcome
  /-- `verify` throws any other error. -/
  | throwsOther : VerifyOutcome
  /-- `verify` returns, and the decoded payload has the given shape. -/
  | success : DecodedShape → VerifyOutcome
deriving DecidableEq

/-- Per-request authentication environment: the `access_token` cookie
value (if present), the `JWT_SECRET` environment variable (if set), and
what `verify(token, jwtSecret)` does when both are present. -/
structure AuthEnv : Type where
  token : Option String
  jwtSecret : Option String
  verifyOutcome : VerifyOutcome
deriving DecidableEq

/-- Result of a `getVerifiedUserId` helper: the extracted `userId`, or an
error `NextResponse` with a status and envelope message. -/
inductive AuthResult : Type where
  | ok : String → AuthResult
  | err : Nat → String → AuthResult
deriving DecidableEq

/-- The helper `getVerifiedUserId` as defined in `src/app/api/goals/[goalId]/route.ts`
lines 20–91.  After structural validation it additionally rejects an
empty-string `userId` with 401 "Invalid token payload.". -/
def getVerifiedUserIdGoalItem (env : AuthEnv) : AuthResult :=
  match env.token with
  | none => AuthResult.err 401 "Authentication required."
  | some _ =>
    match env.jwtSecret with
    | none => AuthResult.err 500 "Internal Server Error: Server configuration missing."
    | some _ =>
      match env.verifyOutcome with
      | VerifyOutcome.success d =>
        match d with
        | DecodedShape.objUserIdStr s =>
          if 0 < s.data.length then AuthResult.ok s
          else AuthResult.err 401 "Invalid token payload."
        | _ => AuthResult.err 401 "Invalid token payload."
      | VerifyOutcome.throwsExpired => AuthResult.err 401 "Token expired."
      | VerifyOutcome.throwsJwtError => AuthResult.err 401 "Invalid token."
      | VerifyOutcome.throwsOther => AuthResult.err 401 "Invalid or expired token."

/-- The helper `getVerifiedUserId` as defined in `src/app/api/progress/route.ts`
lines 18–89 (textually the same helper as the goal-item copy). -/
def getVerifiedUserIdProgress (env : AuthEnv) : AuthResult :=
  match env.token with
  | none => AuthResult.err 401 "Authentication required."
  | some _ =>
    match env.jwtSecret with
    | none => AuthResult.err 500 "Internal Server Error: Server configuration missing."
    | some _ =>
      match env.verifyOutcome with
      | VerifyOutcome.success d =>
        match d with
        | DecodedShape.objUserIdStr s =>
          if 0 < s.data.length then AuthResult.ok s
          else AuthResult.err 401 "Invalid token payload."
        | _ => AuthResult.err 401 "Invalid token payload."
      | VerifyOutcome.throwsExpired => AuthResult.err 401 "Token expired."
      | VerifyOutcome.throwsJwtError => AuthResult.err 401 "Invalid token."
      | VerifyOutcome.throwsOther => AuthResult.err 401 "Invalid or expired token."

/-- The helper `getVerifiedUserId` as defined in the goals collection route
(`src/unnamed/part_005`, lines 33–94).  This copy returns
`payload.userId` as soon as it is a string — it has no
`payload.userId.length > 0` check. -/
def getVerifiedUserIdGoals (env : AuthEnv) : AuthResult :=
  match env.token with
  | none => AuthResult.err 401 "Authentication required."
  | some _ =>
    match env.jwtSecret with
    | none => AuthResult.err 500 "Internal Server Error: Server configuration missing."
    | some _ =>
      match env.verifyOutcome with
      | VerifyOutcome.success d =>
        match d with
        | DecodedShape.objUserIdStr s => AuthResult.ok s
        | _ => AuthResult.err 401 "Invalid token payload."
      | VerifyOutcome.throwsExpired => AuthResult.err 401 "Token expired."
      | VerifyOutcome.throwsJwtError => AuthResult.err 401 "Invalid token."
      | VerifyOutcome.throwsOther => AuthResult.err 401 "Invalid or expired token."

/-! ## `src/middleware.ts` -/

/-- Result of the middleware: a JSON response (status and envelope
message), a redirect to the login URL built from the request, or
`NextResponse.next()` (the request proceeds unchanged). -/
inductive MwResult : Type where
  | respond : Nat → String → MwResult
  | redirectLogin : MwResult
  | next : MwResult
deriving DecidableEq

/-- Models the middleware test of whether the request pathname begins
with the characters `/api/`. -/
def isApiPath (pathname : String) : Bool :=
  listStartsWith "/api/".data pathname.data

/-- The `middleware` function (`src/middleware.ts`, lines 5–45): no
cookie → 401 JSON (API) or login redirect (page); cookie but no
`JWT_SECRET` → 500 JSON for every path; `verify` throws → 401 JSON (API)
or login redirect (page); `verify` succeeds → pass through.  The decoded
payload is never inspected. -/
def middleware (env : AuthEnv) (pathname : String) : MwResult :=
  match env.token with
  | none =>
    if isApiPath pathname then MwResult.respond 401 "Authentication required"
    else MwResult.redirectLogin
  | some _ =>
    match env.jwtSecret with
    | none => MwResult.respond 500 "Internal Server Error: JWT secret missing"
    | some _ =>
      match env.verifyOutcome with
      | VerifyOutcome.success _ => MwResult.next
      | _ =>
        if isApiPath pathname then MwResult.respond 401 "Invalid or expired token"
        else MwResult.redirectLogin

/-- One Next.js matcher pattern of the form `base + "/:path*"`: it matches
`base` itself and every pathname below `base + "/"`. -/
def matchBase (base pathname : String) : Bool :=
  pathname == base || listStartsWith (base.data ++ ['/']) pathname.data

/-- The middleware `config.matcher`
(the three patterns `/dashboard/:path*`, `/api/goals/:path*` and
`/api/progress/:path*`,
`src/middleware.ts` lines 47–49): true iff the middleware runs for the
given pathname. -/
def matcherMatches (pathname : String) : Bool :=
  matchBase "/dashboard" pathname ||
  matchBase "/api/goals" pathname ||
  matchBase "/api/progress" pathname

/-! ## Data model (`src/models`, `src/lib/types`) -/

/-- A persisted Goal document (fields the handlers read or write; ids as
strings). -/
structure Goal : Type where
  id : String
  userId : String
  name : String
  description : Option String := none
  targetMetric : Option String := none
  targetUnit : Option String := none
  /-- deadline as an epoch-millisecond timestamp. -/
  deadline : Option Int := none
deriving DecidableEq

/-- A persisted ProgressEntry document. -/
structure ProgressEntry : Type where
  id : String
  goalId : String
  userId : String
  value : ℚ
  /-- entry date as an epoch-millisecond timestamp. -/
  date : Int
  notes : Option String := none
deriving DecidableEq

/-- The two collections the modelled handlers touch. -/
structure DB : Type where
  goals : List Goal
  progress : List ProgressEntry
deriving DecidableEq

/-- The Mongoose filter `{ _id: goalId, userId: userId }` used by the
goal-item handlers and by the ownership check of the progress handler. -/
def ownedBy (goalId userId : String) (g : Goal) : Bool :=
  g.id == goalId && g.userId == userId

/-- A JSON `NextResponse`: status, envelope `success` flag, envelope
`message`, optional `data` payload — or a bodyless response
(`new NextResponse(null, { status: 204 })`). -/
inductive Resp (α : Type) : Type where
  | json : Nat → Bool → Option String → Option α → Resp α
  | noContent : Resp α
deriving DecidableEq

/-- Outcome of `request.json()` followed by a Zod `safeParse`:
the body was unparseable JSON, failed schema validation, or produced a
validated payload. -/
inductive BodyOutcome (β : Type) : Type where
  | parseError : BodyOutcome β
  | invalid : BodyOutcome β
  | valid : β → BodyOutcome β
deriving DecidableEq

/-- Validated PUT payload per `updateGoalSchema` (all fields optional,
strict; the deadline string already converted to a date). -/
structure UpdateGoalPayload : Type where
  name : Option String := none
  description : Option String := none
  targetMetric : Option String := none
  targetUnit : Option String := none
  deadline : Option Int := none
deriving DecidableEq

/-- Models `Object.keys(updateData).length === 0`: the validated payload carries
no recognized field. -/
def UpdateGoalPayload.isEmptyUpdate (u : UpdateGoalPayload) : Bool :=
  u.name.isNone && u.description.isNone && u.targetMetric.isNone &&
  u.targetUnit.isNone && u.deadline.isNone

/-- Semantics of the `findOneAndUpdate` document update (`$set` effect of passing the
plain update object): present fields overwrite, absent fields persist. -/
def applyUpdate (g : Goal) (u : UpdateGoalPayload) : Goal :=
  { g with
    name := u.name.getD g.name
    description := match u.description with | some d => some d | none => g.description
    targetMetric := match u.targetMetric with | some t => some t | none => g.targetMetric
    targetUnit := match u.targetUnit with | some t => some t | none => g.targetUnit
    deadline := match u.deadline with | some d => some d | none => g.deadline }

/-- Update the first list element satisfying `p` (Mongoose
`findOneAndUpdate` touches one document). -/
def updateFirst (p : Goal → Bool) (f : Goal → Goal) : List Goal → List Goal
  | [] => []
  | g :: gs => if p g then f g :: gs else g :: updateFirst p f gs

/-- Insert an entry into a list sorted by date descending. -/
def insertByDateDesc (e : ProgressEntry) : List ProgressEntry → List ProgressEntry
  | [] => [e]
  | x :: xs => if e.date ≤ x.date then x :: insertByDateDesc e xs else e :: x :: xs

/-- Models `ProgressModel.find({ goalId }).sort({ date: -1 })`: the matching
entries ordered newest first. -/
def sortByDateDesc (l : List ProgressEntry) : List ProgressEntry :=
  l.foldr insertByDateDesc []

/-! ## `src/app/api/goals/[goalId]/route.ts` — GET / PUT / DELETE

Each handler takes the authentication environment, a flag for whether
`connectDB()` succeeds, the dynamic `goalId` route parameter and the
database state.  The shared first step is the
`!params.goalId || !mongoose.Types.ObjectId.isValid(params.goalId)`
rejection. -/

/-- The standard 404 envelope shared by the goal and progress endpoints. -/
def goalNotFoundMsg : String := "Goal not found or you do not have permission."

/-- GET handler: id format check, connection, auth, then
`GoalModel.findOne({ _id, userId }).lean()`; on a miss the non-disclosure
404; on a hit also the progress entries of the goal, newest first. -/
def goalItemGET (env : AuthEnv) (dbOk : Bool) (goalId : String) (db : DB) :
    Resp (Goal × List ProgressEntry) :=
  if goalId.data.isEmpty || !isValidObjectId goalId then
    Resp.json 400 false (some "Invalid Goal ID format.") none
  else if !dbOk then
    Resp.json 500 false (some "Internal Server Error: Could not connect to database.") none
  else
    match getVerifiedUserIdGoalItem env with
    | AuthResult.err st m => Resp.json st false (some m) none
    | AuthResult.ok userId =>
      match db.goals.find? (ownedBy goalId userId) with
      | none => Resp.json 404 false (some goalNotFoundMsg) none
      | some goal =>
        let progressEntries := sortByDateDesc (db.progress.filter (fun p => p.goalId == goalId))
        Resp.json 200 true none (some (goal, progressEntries))

/-- PUT handler: id format check, connection, auth, body parse
(400 on JSON error), Zod validation (400), the
"No update data provided." emptiness rejection (400), then
`findOneAndUpdate({ _id, userId }, updateData)`; a miss yields the
non-disclosure 404, a hit returns the updated goal and the updated
database. -/
def goalItemPUT (env : AuthEnv) (dbOk : Bool) (goalId : String)
    (body : BodyOutcome UpdateGoalPayload) (db : DB) : Resp Goal × DB :=
  if goalId.data.isEmpty || !isValidObjectId goalId then
    (Resp.json 400 false (some "Invalid Goal ID format.") none, db)
  else if !dbOk then
    (Resp.json 500 false (some "Internal Server Error: Could not connect to database.") none, db)
  else
    match getVerifiedUserIdGoalItem env with
    | AuthResult.err st m => (Resp.json st false (some m) none, db)
    | AuthResult.ok userId =>
      match body with
      | BodyOutcome.parseError =>
        (Resp.json 400 false (some "Invalid request body: Could not parse JSON.") none, db)
      | BodyOutcome.invalid =>
        (Resp.json 400 false (some "Invalid goal update data provided.") none, db)
      | BodyOutcome.valid u =>
        if u.isEmptyUpdate then
          (Resp.json 400 false (some "No update data provided.") none, db)
        else
          match db.goals.find? (ownedBy goalId userId) with
          | none => (Resp.json 404 false (some goalNotFoundMsg) none, db)
          | some g =>
            let updatedGoal := applyUpdate g u
            (Resp.json 200 true none (some updatedGoal),
             { db with goals := updateFirst (ownedBy goalId userId) (fun x => applyUpdate x u) db.goals })

/-- DELETE handler: id format check, connection, auth, then
`GoalModel.deleteOne({ _id, userId })`; `deletedCount === 0` yields the
non-disclosure 404; otherwise the cascade
`ProgressModel.deleteMany({ goalId })` runs inside its own try/catch —
`cascadeOk = false` models that step throwing, which is logged and
swallowed — and the handler responds 204 with no body either way. -/
def goalItemDELETE (env : AuthEnv) (dbOk : Bool) (goalId : String)
    (cascadeOk : Bool) (db : DB) : Resp Unit × DB :=
  if goalId.data.isEmpty || !isValidObjectId goalId then
    (Resp.json 400 false (some "Invalid Goal ID format.") none, db)
  else if !dbOk then
    (Resp.json 500 false (some "Internal Server Error: Could not connect to database.") none, db)
  else
    match getVerifiedUserIdGoalItem env with
    | AuthResult.err st m => (Resp.json st false (some m) none, db)
    | AuthResult.ok userId =>
      if db.goals.any (ownedBy goalId userId) then
        let goalsAfter := db.goals.eraseP (ownedBy goalId userId)
        let progressAfter :=
          if cascadeOk then db.progress.filter (fun p => !(p.goalId == goalId))
          else db.progress
        (Resp.noContent, { goals := goalsAfter, progress := progressAfter })
      else
        (Resp.json 404 false (some goalNotFoundMsg) none, db)

/-! ## `src/app/api/progress/route.ts` — POST (progress creation) -/

/-- Validated payload per `logProgressSchema`: a syntactically valid
`goalId`, a finite `value`, an offset date-time `date` (already converted
to a timestamp), optional trimmed `notes`. -/
structure LogProgressPayload : Type where
  goalId : String
  value : ℚ
  date : Int
  notes : Option String := none
deriving DecidableEq

/-- POST handler: connection, auth, body parse (400), validation (400),
then the ownership check `GoalModel.findOne({ _id: goalId, userId })` —
a miss yields the same non-disclosure 404 and creates nothing; a hit
creates the ProgressEntry (`freshId` is the id the database assigns) and
responds 201 with the created entry. -/
def progressPOST (env : AuthEnv) (dbOk : Bool)
    (body : BodyOutcome LogProgressPayload) (freshId : String) (db : DB) :
    Resp ProgressEntry × DB :=
  if !dbOk then
    (Resp.json 500 false (some "Internal Server Error: Could not connect to database.") none, db)
  else
    match getVerifiedUserIdProgress env with
    | AuthResult.err st m => (Resp.json st false (some m) none, db)
    | AuthResult.ok userId =>
      match body with
      | BodyOutcome.parseError =>
        (Resp.json 400 false (some "Invalid request body: Could not parse JSON.") none, db)
      | BodyOutcome.invalid =>
        (Resp.json 400 false (some "Invalid progress data provided.") none, db)
      | BodyOutcome.valid p =>
        match db.goals.find? (ownedBy p.goalId userId) with
        | none => (Resp.json 404 false (some goalNotFoundMsg) none, db)
        | some _ =>
          let entry : ProgressEntry :=
            { id := freshId, goalId := p.goalId, userId := userId,
              value := p.value, date := p.date, notes := p.notes }
          (Resp.json 201 true none (some entry),
           { db with progress := db.progress ++ [entry] })

/-! ## `src/app/api/progress/route.ts` (auth segment) — POST login branch -/

/-- A persisted User document (`password` is the stored bcrypt hash,
selected explicitly by the login query). -/
structure UserRec : Type where
  id : String
  name : String
  email : String
  password : String
deriving DecidableEq

/-- The `access_token` cookie as set by `response.cookies.set`. -/
structure Cookie : Type where
  name : String
  value : String
  httpOnly : Bool
  secure : Bool
  sameSite : String
  path : String
  maxAge : Nat
deriving DecidableEq

/-- Login-relevant server environment: `JWT_SECRET`, `JWT_EXPIRES_IN`,
whether `NODE_ENV === 'production'`, and the token `sign` produces
(`none` models `sign` throwing). -/
structure LoginEnv : Type where
  jwtSecret : Option String
  jwtExpiresIn : Option String
  isProduction : Bool
  signedToken : Option String
deriving DecidableEq

/-- Outcome of the login-body parse/validation pipeline
(`request.json()`, `actionSchema`, `loginSchema`). -/
inductive LoginBody : Type where
  | parseError : LoginBody
  | invalidAction : LoginBody
  | invalidFields : LoginBody
  | valid : String → String → LoginBody
deriving DecidableEq

/-- Response of the login branch: a failure envelope, or 200 with the
public user data and the session cookie. -/
inductive LoginResult : Type where
  | fail : Nat → String → LoginResult
  | ok : UserRec → Cookie → LoginResult
deriving DecidableEq

/-- The `action === 'login'` branch of the auth POST handler
(`src/app/api/progress/route.ts` auth segment, lines 312–522):
connection, body pipeline, `findOne({ email: email.toLowerCase() })`,
`comparePassword` (modelled by the `compare` function argument:
candidate and stored hash), the generic 401 for both failure causes,
the JWT configuration checks, `parseJwtExpiresIn`, `sign`, and the
cookie attributes. -/
def loginPOST (dbOk : Bool) (body : LoginBody) (users : List UserRec)
    (compare : String → String → Bool) (env : LoginEnv) : LoginResult :=
  if !dbOk then
    LoginResult.fail 500 "Internal Server Error: Could not connect to database."
  else
    match body with
    | LoginBody.parseError =>
      LoginResult.fail 400 "Invalid request body: Could not parse JSON."
    | LoginBody.invalidAction => LoginResult.fail 400 "Invalid action specified."
    | LoginBody.invalidFields => LoginResult.fail 400 "Invalid login data."
    | LoginBody.valid email candidatePassword =>
      match users.find? (fun u => u.email == lowerStr email) with
      | none => LoginResult.fail 401 "Invalid email or password."
      | some user =>
        if !compare candidatePassword user.password then
          LoginResult.fail 401 "Invalid email or password."
        else
          match env.jwtSecret, env.jwtExpiresIn with
          | some _, some jwtExpiresIn =>
            match parseJwtExpiresIn jwtExpiresIn with
            | none =>
              LoginResult.fail 500 "Internal Server Error: Invalid JWT expiration format."
            | some maxAgeSeconds =>
              match env.signedToken with
              | none =>
                LoginResult.fail 500 "Internal Server Error: Could not create session."
              | some token =>
                LoginResult.ok user
                  { name := "access_token", value := token, httpOnly := true,
                    secure := env.isProduction, sameSite := "lax", path := "/",
                    maxAge := maxAgeSeconds }
          | _, _ =>
            LoginResult.fail 500 "Internal Server Error: JWT configuration missing."

/-! ## Shared auxiliary lemmas -/

/-- A string with empty character data is the empty string. -/
theorem eq_empty_of_data_eq_nil {s : String} (h : s.data = []) : s = "" := by
  cases s with
  | mk data =>
    simp only [String.data] at h
    subst h
    rfl

/-- A non-empty string has positive character count. -/
theorem data_length_pos_of_ne_empty {s : String} (h : s ≠ "") : 0 < s.data.length :=
  List.length_pos.mpr (fun hd => h (eq_empty_of_data_eq_nil hd))

/-- A syntactically valid ObjectId string is non-empty (it has 12 or 24
characters), so the JavaScript falsiness check `!params.goalId` passes. -/
theorem isEmpty_eq_false_of_isValidObjectId {s : String}
    (h : isValidObjectId s = true) : s.data.isEmpty = false := by
  cases hcs : s.data with
  | nil =>
    rw [isValidObjectId, hcs] at h
    exact absurd h (by decide)
  | cons a as => simp [hcs]

/-- If `find?` misses, `any` is false (a `deleteOne` with the same filter
deletes nothing). -/
theorem any_eq_false_of_find?_eq_none {α : Type} {p : α → Bool} {l : List α}
    (h : l.find? p = none) : l.any p = false := by
  rw [Bool.eq_false_iff]
  intro hany
  rcases List.any_eq_true.mp hany with ⟨x, hx, hpx⟩
  exact (List.find?_eq_none.mp h x hx) hpx

/-! ## Claim theorems -/

/-- C6: for every pair of inputs, `calculateCompletionPercentage` returns
`none` (the explicit not-applicable result) exactly when the target is
absent, non-numeric (including `NaN`), zero or negative; otherwise it
returns `(current / target) * 100` clamped to `[0, 100]`, treating an
absent or non-numeric current value as `0`; and the five concrete example
evaluations of the claim hold. -/
theorem c6_calculateCompletionPercentage :
    (∀ c, calculateCompletionPercentage c JsArg.absent = none) ∧
    (∀ c, calculateCompletionPercentage c JsArg.nonNum = none) ∧
    (∀ c, calculateCompletionPercentage c JsArg.nan = none) ∧
    (∀ c (t : ℚ), t ≤ 0 → calculateCompletionPercentage c (JsArg.num t) = none) ∧
    (∀ (c t : ℚ), 0 < t →
      calculateCompletionPercentage (JsArg.num c) (JsArg.num t) =
        some (max 0 (min (c / t * 100) 100))) ∧
    (∀ (t : ℚ), 0 < t →
      calculateCompletionPercentage JsArg.absent (JsArg.num t) = some 0 ∧
      calculateCompletionPercentage JsArg.nonNum (JsArg.num t) = some 0 ∧
      calculateCompletionPercentage JsArg.nan (JsArg.num t) = some 0) ∧
    calculateCompletionPercentage (JsArg.num 50) (JsArg.num 100) = some 50 ∧
    calculateCompletionPercentage (JsArg.num 150) (JsArg.num 100) = some 100 ∧
    calculateCompletionPercentage (JsArg.num (-10)) (JsArg.num 100) = some 0 ∧
    calculateCompletionPercentage (JsArg.num 50) (JsArg.num 0) = none ∧
    calculateCompletionPercentage JsArg.absent (JsArg.num 100) = some 0 := by
  refine ⟨fun c => rfl, fun c => rfl, fun c => rfl, ?_, ?_, ?_, ?_, ?_, ?_, ?_, ?_⟩
  · intro c t ht
    rw [calculateCompletionPercentage, if_pos ht]
  · intro c t ht
    rw [calculateCompletionPercentage, if_neg (not_le.mpr ht), effectiveCurrentValue]
  · intro t ht
    refine ⟨?_, ?_, ?_⟩ <;>
      · rw [calculateCompletionPercentage, if_neg (not_le.mpr ht)]
        norm_num [effectiveCurrentValue, min_def, max_def]
  · rw [calculateCompletionPercentage]
    norm_num [effectiveCurrentValue, min_def, max_def]
  · rw [calculateCompletionPercentage]
    norm_num [effectiveCurrentValue, min_def, max_def]
  · rw [calculateCompletionPercentage]
    norm_num [effectiveCurrentValue, min_def, max_def]
  · rw [calculateCompletionPercentage]
    norm_num
  · rw [calculateCompletionPercentage]
    norm_num [effectiveCurrentValue, min_def, max_def]

/-- C6 witness: the general clamped-formula case evaluated at the
concrete input `(20, 100)`. -/
theorem c6_witness :
    calculateCompletionPercentage (JsArg.num 20) (JsArg.num 100) =
      some (max 0 (min (20 / 100 * 100) 100)) :=
  c6_calculateCompletionPercentage.2.2.2.2.1 20 100 (by norm_num)

/-- C3: the middleware `config.matcher` covers the dashboard, goals and
progress families but does NOT match `/api/auth/profile` — a request to
the profile path is not gated by the middleware, contradicting the claim
(and the documented assumption of the session helper that signature
verification already happened in the middleware). -/
theorem c3_profile_not_matched :
    matcherMatches "/dashboard" = true ∧
    matcherMatches "/dashboard/stats" = true ∧
    matcherMatches "/api/goals" = true ∧
    matcherMatches "/api/goals/0123456789ab" = true ∧
    matcherMatches "/api/progress" = true ∧
    matcherMatches "/api/auth/profile" = false := by decide

/-- C2 counterexample: on a request whose cookie verifies with the
payload `{ userId: "" }`, the goals-collection helper returns the empty
userId while the goal-item helper rejects with 401
"Invalid token payload." — the helpers are not extensionally equal, and
in particular do not agree on an empty-string userId claim. -/
theorem c2_counterexample :
    getVerifiedUserIdGoals
      (AuthEnv.mk (some "token") (some "secret")
        (VerifyOutcome.success (DecodedShape.objUserIdStr ""))) = AuthResult.ok "" ∧
    getVerifiedUserIdGoalItem
      (AuthEnv.mk (some "token") (some "secret")
        (VerifyOutcome.success (DecodedShape.objUserIdStr ""))) =
      AuthResult.err 401 "Invalid token payload." ∧
    getVerifiedUserIdGoals
      (AuthEnv.mk (some "token") (some "secret")
        (VerifyOutcome.success (DecodedShape.objUserIdStr ""))) ≠
    getVerifiedUserIdGoalItem
      (AuthEnv.mk (some "token") (some "secret")
        (VerifyOutcome.success (DecodedShape.objUserIdStr ""))) := by decide

/-- C2 (amended): the goal-item and progress helpers are extensionally
equal; the goals-collection helper agrees with them on every request
except one whose token verifies with an empty-string `userId` claim,
where the collection helper returns the empty userId and the other two
return 401 "Invalid token payload.". -/
theorem c2_amended :
    (∀ env, getVerifiedUserIdGoalItem env = getVerifiedUserIdProgress env) ∧
    (∀ env, env.verifyOutcome ≠ VerifyOutcome.success (DecodedShape.objUserIdStr "") →
      getVerifiedUserIdGoals env = getVerifiedUserIdGoalItem env) ∧
    (∀ env, env.token.isSome = true → env.jwtSecret.isSome = true →
      env.verifyOutcome = VerifyOutcome.success (DecodedShape.objUserIdStr "") →
      getVerifiedUserIdGoals env = AuthResult.ok "" ∧
      getVerifiedUserIdGoalItem env = AuthResult.err 401 "Invalid token payload." ∧
      getVerifiedUserIdProgress env = AuthResult.err 401 "Invalid token payload.") := by
  refine ⟨fun env => rfl, ?_, ?_⟩
  · rintro ⟨tok, sec, vo⟩ hne
    cases tok with
    | none => rfl
    | some t =>
      cases sec with
      | none => rfl
      | some s =>
        cases vo with
        | throwsExpired => rfl
        | throwsJwtError => rfl
        | throwsOther => rfl
        | success d =>
          cases d with
          | notObject => rfl
          | objNoUserId => rfl
          | objUserIdNotString => rfl
          | objUserIdStr uid =>
            have huid : uid ≠ "" := by
              intro h
              exact hne (by rw [h])
            simp only [getVerifiedUserIdGoals, getVerifiedUserIdGoalItem,
              if_pos (data_length_pos_of_ne_empty huid)]
  · rintro ⟨tok, sec, vo⟩ htok hsec hvo
    cases tok with
    | none => simp at htok
    | some t =>
      cases sec with
      | none => simp at hsec
      | some s =>
        subst hvo
        refine ⟨rfl, ?_, ?_⟩ <;>
          · simp only [getVerifiedUserIdGoalItem, getVerifiedUserIdProgress]
            rw [if_neg (by decide)]

/-- C2 witness: the amended exceptional case at a concrete environment. -/
theorem c2_witness :
    getVerifiedUserIdGoals
      (AuthEnv.mk (some "tok") (some "sec")
        (VerifyOutcome.success (DecodedShape.objUserIdStr ""))) = AuthResult.ok "" ∧
    getVerifiedUserIdGoalItem
      (AuthEnv.mk (some "tok") (some "sec")
        (VerifyOutcome.success (DecodedShape.objUserIdStr ""))) =
      AuthResult.err 401 "Invalid token payload." ∧
    getVerifiedUserIdProgress
      (AuthEnv.mk (some "tok") (some "sec")
        (VerifyOutcome.success (DecodedShape.objUserIdStr ""))) =
      AuthResult.err 401 "Invalid token payload." :=
  c2_amended.2.2
    (AuthEnv.mk (some "tok") (some "sec")
      (VerifyOutcome.success (DecodedShape.objUserIdStr "")))
    rfl rfl rfl

/-- Decoded payload shapes the routes reject with
"Invalid token payload.": no object payload, no `userId` key, a
non-string `userId`, or an empty-string `userId`. -/
def badPayload : DecodedShape → Prop
  | DecodedShape.objUserIdStr s => s = ""
  | _ => True

/-- C10: a request whose cookie verifies successfully but whose decoded
payload lacks a usable `userId` (missing, non-string or empty) passes the
middleware unchanged (`next`), while the goal-item and progress helpers
reject the same request with 401 "Invalid token payload.". -/
theorem c10_payload_gap :
    ∀ (env : AuthEnv) (pathname : String) (d : DecodedShape),
      env.token.isSome = true → env.jwtSecret.isSome = true →
      env.verifyOutcome = VerifyOutcome.success d →
      badPayload d →
      middleware env pathname = MwResult.next ∧
      getVerifiedUserIdGoalItem env = AuthResult.err 401 "Invalid token payload." ∧
      getVerifiedUserIdProgress env = AuthResult.err 401 "Invalid token payload." := by
  rintro ⟨tok, sec, vo⟩ pathname d htok hsec hvo hbad
  cases tok with
  | none => simp at htok
  | some t =>
    cases sec with
    | none => simp at hsec
    | some s =>
      subst hvo
      refine ⟨rfl, ?_, ?_⟩ <;>
        · cases d with
          | notObject => rfl
          | objNoUserId => rfl
          | objUserIdNotString => rfl
          | objUserIdStr uid =>
            have huid : uid = "" := hbad
            subst huid
            simp only [getVerifiedUserIdGoalItem, getVerifiedUserIdProgress]
            rw [if_neg (by decide)]

/-- C10 witness: a verified token whose payload has no `userId` key, on a
goals API path. -/
theorem c10_witness :
    middleware
      (AuthEnv.mk (some "tok") (some "sec")
        (VerifyOutcome.success DecodedShape.objNoUserId)) "/api/goals/abc" = MwResult.next ∧
    getVerifiedUserIdGoalItem
      (AuthEnv.mk (some "tok") (some "sec")
        (VerifyOutcome.success DecodedShape.objNoUserId)) =
      AuthResult.err 401 "Invalid token payload." ∧
    getVerifiedUserIdProgress
      (AuthEnv.mk (some "tok") (some "sec")
        (VerifyOutcome.success DecodedShape.objNoUserId)) =
      AuthResult.err 401 "Invalid token payload." :=
  c10_payload_gap
    (AuthEnv.mk (some "tok") (some "sec")
      (VerifyOutcome.success DecodedShape.objNoUserId))
    "/api/goals/abc" DecodedShape.objNoUserId rfl rfl rfl trivial

/-- C4: the middleware implements exactly the claimed four-case
algorithm: missing cookie → 401 JSON on API paths / login redirect on
page paths; cookie but no signing secret → 500 JSON on every path;
verification throws → 401 JSON on API paths / login redirect on page
paths; verification succeeds → the request proceeds unchanged. -/
theorem c4_middleware :
    ∀ (env : AuthEnv) (pathname : String),
      (env.token = none →
        middleware env pathname =
          (if isApiPath pathname then MwResult.respond 401 "Authentication required"
           else MwResult.redirectLogin)) ∧
      (∀ t, env.token = some t → env.jwtSecret = none →
        middleware env pathname =
          MwResult.respond 500 "Internal Server Error: JWT secret missing") ∧
      (∀ t s, env.token = some t → env.jwtSecret = some s →
        (env.verifyOutcome = VerifyOutcome.throwsExpired ∨
         env.verifyOutcome = VerifyOutcome.throwsJwtError ∨
         env.verifyOutcome = VerifyOutcome.throwsOther) →
        middleware env pathname =
          (if isApiPath pathname then MwResult.respond 401 "Invalid or expired token"
           else MwResult.redirectLogin)) ∧
      (∀ t s d, env.token = some t → env.jwtSecret = some s →
        env.verifyOutcome = VerifyOutcome.success d →
        middleware env pathname = MwResult.next) := by
  rintro ⟨tok, sec, vo⟩ pathname
  refine ⟨?_, ?_, ?_, ?_⟩
  · rintro rfl
    rfl
  · rintro t rfl rfl
    rfl
  · rintro t s rfl rfl hthrow
    rcases hthrow with h | h | h <;> · simp only at h; subst h; rfl
  · rintro t s d rfl rfl hvo
    simp only at hvo
    subst hvo
    rfl

/-- C4 witness: case 1 at a concrete cookie-less API request. -/
theorem c4_witness :
    middleware (AuthEnv.mk none none VerifyOutcome.throwsOther) "/api/goals/1" =
      MwResult.respond 401 "Authentication required" := by
  have h :=
    (c4_middleware (AuthEnv.mk none none VerifyOutcome.throwsOther) "/api/goals/1").1 rfl
  simpa using h

/-- C1 counterexample: an authenticated PUT with a syntactically valid
`goalId`, against a database holding no such goal, but whose body
validates to an empty update object, responds
400 "No update data provided." — not the claimed 404 — because the PUT
handler rejects the body before the ownership lookup.  (GET and DELETE
have no body step; the claim fails only for PUT.) -/
theorem c1_counterexample :
    getVerifiedUserIdGoalItem
      (AuthEnv.mk (some "tok") (some "sec")
        (VerifyOutcome.success (DecodedShape.objUserIdStr "user1"))) =
      AuthResult.ok "user1" ∧
    isValidObjectId "aaaaaaaaaaaaaaaaaaaaaaaa" = true ∧
    (DB.mk [] []).goals.find? (ownedBy "aaaaaaaaaaaaaaaaaaaaaaaa" "user1") = none ∧
    (goalItemPUT
      (AuthEnv.mk (some "tok") (some "sec")
        (VerifyOutcome.success (DecodedShape.objUserIdStr "user1")))
      true "aaaaaaaaaaaaaaaaaaaaaaaa"
      (BodyOutcome.valid (UpdateGoalPayload.mk none none none none none))
      (DB.mk [] [])).1 =
      Resp.json 400 false (some "No update data provided.") none ∧
    (goalItemPUT
      (AuthEnv.mk (some "tok") (some "sec")
        (VerifyOutcome.success (DecodedShape.objUserIdStr "user1")))
      true "aaaaaaaaaaaaaaaaaaaaaaaa"
      (BodyOutcome.valid (UpdateGoalPayload.mk none none none none none))
      (DB.mk [] [])).1 ≠
      Resp.json 404 false (some goalNotFoundMsg) none := by decide

/-- C1 (amended): for every authenticated GET or DELETE with a
syntactically valid `goalId` (database reachable), and every
authenticated PUT whose body additionally parses, validates and carries
at least one field: when no goal with that id is owned by the requesting
user — whether the goal is absent entirely or owned by another user —
the response is 404 with exactly
"Goal not found or you do not have permission.", identical in both
cases, and DELETE leaves the database unchanged. -/
theorem c1_amended :
    ∀ (env : AuthEnv) (uid goalId : String) (db : DB)
      (u : UpdateGoalPayload) (cascadeOk : Bool),
      getVerifiedUserIdGoalItem env = AuthResult.ok uid →
      isValidObjectId goalId = true →
      db.goals.find? (ownedBy goalId uid) = none →
      goalItemGET env true goalId db =
        Resp.json 404 false (some goalNotFoundMsg) none ∧
      goalItemDELETE env true goalId cascadeOk db =
        (Resp.json 404 false (some goalNotFoundMsg) none, db) ∧
      (u.isEmptyUpdate = false →
        goalItemPUT env true goalId (BodyOutcome.valid u) db =
          (Resp.json 404 false (some goalNotFoundMsg) none, db)) := by
  intro env uid goalId db u cascadeOk hauth hvalid hfind
  have hempty := isEmpty_eq_false_of_isValidObjectId hvalid
  have hany := any_eq_false_of_find?_eq_none hfind
  refine ⟨?_, ?_, ?_⟩
  · simp [goalItemGET, hempty, hvalid, hauth, hfind]
  · simp [goalItemDELETE, hempty, hvalid, hauth, hany]
  · intro hne
    simp [goalItemPUT, hempty, hvalid, hauth, hne, hfind]

/-- C1 witness: the amended statement at a concrete request against a
database owning no matching goal. -/
theorem c1_witness :
    goalItemGET
      (AuthEnv.mk (some "tok") (some "sec")
        (VerifyOutcome.success (DecodedShape.objUserIdStr "user1")))
      true "aaaaaaaaaaaaaaaaaaaaaaaa"
      (DB.mk [Goal.mk "aaaaaaaaaaaaaaaaaaaaaaaa" "user2" "Swim" none none none none] []) =
      Resp.json 404 false (some goalNotFoundMsg) none ∧
    goalItemPUT
      (AuthEnv.mk (some "tok") (some "sec")
        (VerifyOutcome.success (DecodedShape.objUserIdStr "user1")))
      true "aaaaaaaaaaaaaaaaaaaaaaaa"
      (BodyOutcome.valid (UpdateGoalPayload.mk (some "Jog") none none none none))
      (DB.mk [Goal.mk "aaaaaaaaaaaaaaaaaaaaaaaa" "user2" "Swim" none none none none] []) =
      (Resp.json 404 false (some goalNotFoundMsg) none,
       DB.mk [Goal.mk "aaaaaaaaaaaaaaaaaaaaaaaa" "user2" "Swim" none none none none] []) := by
  have h :=
    c1_amended
      (AuthEnv.mk (some "tok") (some "sec")
        (VerifyOutcome.success (DecodedShape.objUserIdStr "user1")))
      "user1" "aaaaaaaaaaaaaaaaaaaaaaaa"
      (DB.mk [Goal.mk "aaaaaaaaaaaaaaaaaaaaaaaa" "user2" "Swim" none none none none] [])
      (UpdateGoalPayload.mk (some "Jog") none none none none) true
      (by decide) (by decide) (by decide)
  exact ⟨h.1, h.2.2 (by decide)⟩

/-- C5: for every authenticated, schema-valid progress-creation request
(database reachable): when the `goalId` does not refer to a goal owned by
the caller, the endpoint responds 404 with the shared
non-disclosure message and the database is unchanged (no ProgressEntry is
created); when the referenced goal is owned by the caller, exactly one
ProgressEntry carrying the payload data and the authenticated userId is
appended and the response is 201 with the created entry. -/
theorem c5_progress :
    ∀ (env : AuthEnv) (uid freshId : String) (p : LogProgressPayload) (db : DB),
      getVerifiedUserIdProgress env = AuthResult.ok uid →
      (db.goals.find? (ownedBy p.goalId uid) = none →
        progressPOST env true (BodyOutcome.valid p) freshId db =
          (Resp.json 404 false (some goalNotFoundMsg) none, db)) ∧
      (∀ g, db.goals.find? (ownedBy p.goalId uid) = some g →
        ∃ e : ProgressEntry,
          progressPOST env true (BodyOutcome.valid p) freshId db =
            (Resp.json 201 true none (some e), DB.mk db.goals (db.progress ++ [e])) ∧
          e.goalId = p.goalId ∧ e.userId = uid ∧ e.value = p.value ∧
          e.date = p.date ∧ e.notes = p.notes) := by
  intro env uid freshId p db hauth
  constructor
  · intro hfind
    simp [progressPOST, hauth, hfind]
  · intro g hfind
    refine ⟨ProgressEntry.mk freshId p.goalId uid p.value p.date p.notes,
      ?_, rfl, rfl, rfl, rfl, rfl⟩
    simp [progressPOST, hauth, hfind]

/-- C5 witness: creation against an owned goal appends the entry; the
same request against a foreign goal responds 404 and changes nothing. -/
theorem c5_witness :
    progressPOST
      (AuthEnv.mk (some "tok") (some "sec")
        (VerifyOutcome.success (DecodedShape.objUserIdStr "user1")))
      true
      (BodyOutcome.valid (LogProgressPayload.mk "aaaaaaaaaaaaaaaaaaaaaaaa" 5 1000 none))
      "p9"
      (DB.mk [Goal.mk "aaaaaaaaaaaaaaaaaaaaaaaa" "user2" "Swim" none none none none] []) =
      (Resp.json 404 false (some goalNotFoundMsg) none,
       DB.mk [Goal.mk "aaaaaaaaaaaaaaaaaaaaaaaa" "user2" "Swim" none none none none] []) :=
  (c5_progress
    (AuthEnv.mk (some "tok") (some "sec")
      (VerifyOutcome.success (DecodedShape.objUserIdStr "user1")))
    "user1" "p9" (LogProgressPayload.mk "aaaaaaaaaaaaaaaaaaaaaaaa" 5 1000 none)
    (DB.mk [Goal.mk "aaaaaaaaaaaaaaaaaaaaaaaa" "user2" "Swim" none none none none] [])
    (by decide)).1 (by decide)

/-- C9: on an authenticated DELETE whose filter matches an owned goal
(database reachable), the goal is deleted, the response is 204 with no
body, and the cascade step removes exactly the progress entries
referencing that goal id when it succeeds; when the cascade step fails,
the progress collection is untouched, the response is still 204, and the
goal deletion stands (the resulting goals list is the same either
way). -/
theorem c9_delete_cascade :
    ∀ (env : AuthEnv) (uid goalId : String) (db : DB) (cascadeOk : Bool),
      getVerifiedUserIdGoalItem env = AuthResult.ok uid →
      isValidObjectId goalId = true →
      db.goals.any (ownedBy goalId uid) = true →
      (goalItemDELETE env true goalId cascadeOk db).1 = Resp.noContent ∧
      (goalItemDELETE env true goalId cascadeOk db).2.goals =
        db.goals.eraseP (ownedBy goalId uid) ∧
      (cascadeOk = true →
        ∀ q : ProgressEntry,
          q ∈ (goalItemDELETE env true goalId cascadeOk db).2.progress ↔
            q ∈ db.progress ∧ q.goalId ≠ goalId) ∧
      (cascadeOk = false →
        (goalItemDELETE env true goalId cascadeOk db).2.progress = db.progress) := by
  intro env uid goalId db cascadeOk hauth hvalid hany
  have hempty := isEmpty_eq_false_of_isValidObjectId hvalid
  refine ⟨?_, ?_, ?_, ?_⟩
  · simp [goalItemDELETE, hempty, hvalid, hauth, hany]
  · simp [goalItemDELETE, hempty, hvalid, hauth, hany]
  · rintro rfl q
    simp [goalItemDELETE, hempty, hvalid, hauth, hany, List.mem_filter]
  · rintro rfl
    simp [goalItemDELETE, hempty, hvalid, hauth, hany]

/-- C9 witness: a successful-cascade deletion at a concrete database
with one matching and one unrelated progress entry. -/
theorem c9_witness :
    (goalItemDELETE
      (AuthEnv.mk (some "tok") (some "sec")
        (VerifyOutcome.success (DecodedShape.objUserIdStr "user1")))
      true "aaaaaaaaaaaaaaaaaaaaaaaa" true
      (DB.mk [Goal.mk "aaaaaaaaaaaaaaaaaaaaaaaa" "user1" "Run" none none none none]
        [ProgressEntry.mk "p1" "aaaaaaaaaaaaaaaaaaaaaaaa" "user1" 5 0 none,
         ProgressEntry.mk "p2" "bbbbbbbbbbbbbbbbbbbbbbbb" "user1" 3 0 none])).1 =
      Resp.noContent ∧
    (goalItemDELETE
      (AuthEnv.mk (some "tok") (some "sec")
        (VerifyOutcome.success (DecodedShape.objUserIdStr "user1")))
      true "aaaaaaaaaaaaaaaaaaaaaaaa" true
      (DB.mk [Goal.mk "aaaaaaaaaaaaaaaaaaaaaaaa" "user1" "Run" none none none none]
        [ProgressEntry.mk "p1" "aaaaaaaaaaaaaaaaaaaaaaaa" "user1" 5 0 none,
         ProgressEntry.mk "p2" "bbbbbbbbbbbbbbbbbbbbbbbb" "user1" 3 0 none])).2.goals =
      [Goal.mk "aaaaaaaaaaaaaaaaaaaaaaaa" "user1" "Run" none none none none].eraseP
        (ownedBy "aaaaaaaaaaaaaaaaaaaaaaaa" "user1") := by
  have h :=
    c9_delete_cascade
      (AuthEnv.mk (some "tok") (some "sec")
        (VerifyOutcome.success (DecodedShape.objUserIdStr "user1")))
      "user1" "aaaaaaaaaaaaaaaaaaaaaaaa"
      (DB.mk [Goal.mk "aaaaaaaaaaaaaaaaaaaaaaaa" "user1" "Run" none none none none]
        [ProgressEntry.mk "p1" "aaaaaaaaaaaaaaaaaaaaaaaa" "user1" 5 0 none,
         ProgressEntry.mk "p2" "bbbbbbbbbbbbbbbbbbbbbbbb" "user1" 3 0 none])
      true (by decide) (by decide) (by decide)
  exact ⟨h.1, h.2.1⟩

/-- C8: for every schema-valid login request, an unknown normalized
email and a failed password comparison produce the same response — 401
with exactly "Invalid email or password." — so the two causes are
indistinguishable to the caller. -/
theorem c8_login_indistinguishable :
    ∀ (users : List UserRec) (compare : String → String → Bool) (env : LoginEnv)
      (email password : String),
      (users.find? (fun u => u.email == lowerStr email) = none →
        loginPOST true (LoginBody.valid email password) users compare env =
          LoginResult.fail 401 "Invalid email or password.") ∧
      (∀ u, users.find? (fun u => u.email == lowerStr email) = some u →
        compare password u.password = false →
        loginPOST true (LoginBody.valid email password) users compare env =
          LoginResult.fail 401 "Invalid email or password.") := by
  intro users compare env email password
  constructor
  · intro hfind
    simp [loginPOST, hfind]
  · intro u hfind hcmp
    simp [loginPOST, hfind, hcmp]

/-- C8 witness: login with an email no user has, against an empty user
collection. -/
theorem c8_witness :
    loginPOST true (LoginBody.valid "ghost@x.com" "pw") [] (fun _ _ => true)
      (LoginEnv.mk none none false none) =
      LoginResult.fail 401 "Invalid email or password." :=
  (c8_login_indistinguishable [] (fun _ _ => true) (LoginEnv.mk none none false none)
    "ghost@x.com" "pw").1 rfl

/-- C7 counterexample: `parseJwtExpiresIn " 1d"` succeeds (the source
trims before matching) although the string `" 1d"` itself does not match
`<integer><unit>` — the claimed "parse succeeds exactly when s matches"
iff fails on strings with surrounding whitespace. -/
theorem c7_counterexample :
    parseJwtExpiresIn " 1d" = some 86400 ∧ ¬ specIntUnit " 1d".data 86400 := by
  constructor
  · decide
  · rintro ⟨ds, u, hcs, hne, hdig, hunit, hpos, hn⟩
    have h := congrArg List.dropLast hcs
    simp only [List.dropLast_concat] at h
    have hds : ds = [' ', '1'] := h.symm.trans (by decide)
    have hmem : ' ' ∈ ds := by rw [hds]; exact List.mem_cons_self _ _
    exact absurd (hdig ' ' hmem) (by decide)

/-- C7 (amended): the parse succeeds exactly when the whitespace-trimmed
configured string matches `<integer><unit>` with unit in d/h/m/s and a
positive integer, yielding the integer converted to seconds; and in the
login branch with matching credentials, a failed parse responds 500 while
a successful parse of n seconds sets the `access_token` cookie with
MaxAge n, HttpOnly, SameSite=Lax, Path=/, and Secure exactly in
production. -/
theorem c7_amended :
    (∀ (s : String) (n : Nat),
      parseJwtExpiresIn s = some n ↔ specIntUnit (trimList s.data) n) ∧
    (∀ (users : List UserRec) (compare : String → String → Bool)
       (secret expiresIn : String) (isProduction : Bool) (tokenOpt : Option String)
       (email password : String) (u : UserRec),
      users.find? (fun v => v.email == lowerStr email) = some u →
      compare password u.password = true →
      (parseJwtExpiresIn expiresIn = none →
        loginPOST true (LoginBody.valid email password) users compare
          (LoginEnv.mk (some secret) (some expiresIn) isProduction tokenOpt) =
          LoginResult.fail 500 "Internal Server Error: Invalid JWT expiration format.") ∧
      (∀ (n : Nat) (t : String),
        parseJwtExpiresIn expiresIn = some n → tokenOpt = some t →
        loginPOST true (LoginBody.valid email password) users compare
          (LoginEnv.mk (some secret) (some expiresIn) isProduction tokenOpt) =
          LoginResult.ok u (Cookie.mk "access_token" t true isProduction "lax" "/" n))) := by
  constructor
  · intro s n
    rw [parseJwtExpiresIn]
    generalize trimList s.data = cs
    constructor
    · intro h
      rcases List.eq_nil_or_concat cs with rfl | ⟨ds, u, rfl⟩
      · simp [matchIntUnit] at h
      · simp only [List.concat_eq_append] at h ⊢
        simp only [matchIntUnit, List.getLast?_concat, List.dropLast_concat] at h
        by_cases hg : (!ds.isEmpty && ds.all Char.isDigit && isUnitChar u) = true
        · rw [if_pos hg] at h
          replace h :
              (if digitsToNat ds ≤ 0 then none
               else some (digitsToNat ds * unitSeconds u)) = some n := h
          simp only [Bool.and_eq_true] at hg
          obtain ⟨⟨hne, hall⟩, hu⟩ := hg
          by_cases hv : digitsToNat ds ≤ 0
          · rw [if_pos hv] at h
            exact absurd h (by simp)
          · rw [if_neg hv] at h
            refine ⟨ds, u, rfl, ?_, List.all_eq_true.mp hall, ?_, not_le.mp hv, ?_⟩
            · intro hnil
              rw [hnil] at hne
              exact absurd hne (by decide)
            · revert hu
              simp only [isUnitChar, Bool.or_eq_true, beq_iff_eq]
              tauto
            · exact (Option.some.injEq _ _ ▸ h).symm
        · rw [if_neg hg] at h
          exact absurd h (by simp)
    · rintro ⟨ds, u, rfl, hne, hdig, hunit, hpos, rfl⟩
      have h1 : ds.isEmpty = false := by
        cases ds with
        | nil => exact absurd rfl hne
        | cons a as => rfl
      have hg : (!ds.isEmpty && ds.all Char.isDigit && isUnitChar u) = true := by
        simp only [Bool.and_eq_true]
        refine ⟨⟨?_, List.all_eq_true.mpr hdig⟩, ?_⟩
        · rw [h1]
          rfl
        · rcases hunit with rfl | rfl | rfl | rfl <;> rfl
      simp only [matchIntUnit, List.getLast?_concat, List.dropLast_concat]
      rw [if_pos hg]
      show (if digitsToNat ds ≤ 0 then none
            else some (digitsToNat ds * unitSeconds u)) =
        some (digitsToNat ds * unitSeconds u)
      rw [if_neg (not_le.mpr hpos)]
  · intro users compare secret expiresIn isProduction tokenOpt email password u hfind hcmp
    constructor
    · intro hparse
      simp [loginPOST, hfind, hcmp, hparse]
    · intro n t hparse htok
      subst htok
      simp [loginPOST, hfind, hcmp, hparse]

/-- C7 witness: a concrete successful login with `JWT_EXPIRES_IN = "2h"`
sets the cookie with MaxAge 7200 seconds and the claimed attributes. -/
theorem c7_witness :
    parseJwtExpiresIn "2h" = some 7200 ∧
    loginPOST true (LoginBody.valid "A@x.com" "pw")
      [UserRec.mk "u1" "Ann" "a@x.com" "hash"] (fun _ _ => true)
      (LoginEnv.mk (some "sec") (some "2h") false (some "tok")) =
      LoginResult.ok (UserRec.mk "u1" "Ann" "a@x.com" "hash")
        (Cookie.mk "access_token" "tok" true false "lax" "/" 7200) := by
  have h :=
    (c7_amended.2 [UserRec.mk "u1" "Ann" "a@x.com" "hash"] (fun _ _ => true)
      "sec" "2h" false (some "tok") "A@x.com" "pw"
      (UserRec.mk "u1" "Ann" "a@x.com" "hash") (by decide) rfl).2
      7200 "tok" (by decide) rfl
  exact ⟨by decide, h⟩

end FitTrack
